import Mathlib

/-!
Shallow embedding of the `MneeMart` marketplace escrow contract
(Solidity, `src/MneeMart.sol`) and proofs of its specified properties.

Accounts are modelled as natural numbers, with `0` playing the role of the
EVM zero address (the default value of an `address` storage slot).
Solidity mappings with zero-valued defaults are modelled as association
lists together with a defaulting lookup.  Solidity 0.8 checked arithmetic
reverts on overflow/underflow rather than wrapping; all claims below are
settled in regimes (fee rate ≤ 2000 bps) where no overflow or underflow
can occur, so `Nat` arithmetic is used directly.

Reverts are modelled with `Except`: an `.error` result corresponds to a
reverted call, in which every storage write of the call is rolled back, so
the caller's state is unchanged (see `applyCall`).

ERC-20 token transfers requested by the contract are recorded as explicit
`Transfer` values; `Party.custody` is the contract's own token account
(`address(this)`).
-/

namespace MneeMart

/-- An account identity (EVM address); `0` is the zero/default account. -/
abbrev Addr := Nat

/-- `struct Product` of the contract. -/
structure Product where
  id : Nat
  seller : Addr
  cid : String
  price : Nat
  name : String
  active : Bool
  salesCount : Nat
deriving Repr, DecidableEq

/-- The default (all-zero) value of a `Product` storage slot. -/
def defaultProduct : Product :=
  { id := 0, seller := 0, cid := "", price := 0, name := "", active := false, salesCount := 0 }

/-- `struct Seller` of the contract. -/
structure Seller where
  productIds : List Nat
  totalSales : Nat
  balance : Nat
  totalEarnings : Nat
deriving Repr, DecidableEq

/-- The default (all-zero) value of a `Seller` storage slot. -/
def defaultSeller : Seller :=
  { productIds := [], totalSales := 0, balance := 0, totalEarnings := 0 }

/-- Defaulting lookup in an association list: the value at the first
occurrence of the key, or the default `d` when absent (Solidity mapping
read). -/
def lookupD {α β : Type} [DecidableEq α] (d : β) : List (α × β) → α → β
  | [], _ => d
  | (k, v) :: t, a => if k = a then v else lookupD d t a

/-- Write to an association list: replace the value at the first
occurrence of the key, or append the binding when absent (Solidity
mapping write). -/
def setA {α β : Type} [DecidableEq α] : List (α × β) → α → β → List (α × β)
  | [], a, v => [(a, v)]
  | (k, w) :: t, a, v => if k = a then (a, v) :: t else (k, w) :: setA t a v

/-- One side of a token transfer. -/
inductive Party where
  | custody
  | acct (a : Addr)
deriving Repr, DecidableEq

/-- An ERC-20 transfer requested by the contract. -/
structure Transfer where
  src : Party
  dst : Party
  amount : Nat
deriving Repr, DecidableEq

/-- The revert reasons of the contract (its custom errors, the
require-message of `withdrawPlatformFees`, and the OpenZeppelin
`Ownable` / `ReentrancyGuard` reverts). -/
inductive MartErr where
  | InvalidTokenAddress
  | FeeTooHigh (provided maxAllowed : Nat)
  | EmptyCID
  | InvalidPrice (price : Nat)
  | EmptyName
  | ProductDoesNotExist (productId : Nat)
  | ProductNotActive (productId : Nat)
  | CannotBuyOwnProduct
  | ProductAlreadyPurchased (productId : Nat)
  | NoBalanceToWithdraw
  | NoPlatformFeesToWithdraw
  | AccessDenied
  | NotProductSeller
  | ProductAlreadyInactive
  | ProductAlreadyActive
  | NotOwner
  | ReentrantCall
deriving Repr, DecidableEq

/-- The contract's storage, plus two ghost accumulators used to state the
conservation invariant: `withdrawnTotal` sums every amount paid out by the
two withdrawal operations, and `purchasedTotal` sums the prices of all
completed purchases. `entered` is the OpenZeppelin `ReentrancyGuard`
status (`true` = `ENTERED`). `owner` is the OpenZeppelin `Ownable` owner;
the constructor sets it and `Martowner` to the deployer. -/
structure MartState where
  mneeToken : Nat
  owner : Addr
  Martowner : Addr
  platformFeePercentage : Nat
  productCounter : Nat
  platformBalance : Nat
  products : List (Nat × Product)
  sellers : List (Addr × Seller)
  purchased : List (Addr × Nat)
  entered : Bool
  withdrawnTotal : Nat
  purchasedTotal : Nat
deriving Repr, DecidableEq

/-- Read of `products[pid]`. -/
def getProductRec (s : MartState) (pid : Nat) : Product :=
  lookupD defaultProduct s.products pid

/-- Read of `sellers[a]`. -/
def getSellerRec (s : MartState) (a : Addr) : Seller :=
  lookupD defaultSeller s.sellers a

/-- Read of `hasPurchased[buyer][pid]`. -/
def hasPurchasedB (s : MartState) (buyer : Addr) (pid : Nat) : Bool :=
  (s.purchased.contains (buyer, pid))

/-- `constructor(address _mneeToken, uint256 _platformFeePercentage)`. -/
def constructor (deployer : Addr) (token : Nat) (feeBps : Nat) : Except MartErr MartState :=
  if token = 0 then .error .InvalidTokenAddress
  else if 2000 < feeBps then .error (.FeeTooHigh feeBps 2000)
  else .ok
    { mneeToken := token, owner := deployer, Martowner := deployer,
      platformFeePercentage := feeBps, productCounter := 0, platformBalance := 0,
      products := [], sellers := [], purchased := [], entered := false,
      withdrawnTotal := 0, purchasedTotal := 0 }

/-- `listProduct(string _cid, uint256 _price, string _name)`. -/
def listProduct (s : MartState) (sender : Addr) (cid : String) (price : Nat)
    (name : String) : Except MartErr (MartState × List Transfer) :=
  if cid = "" then .error .EmptyCID
  else if price = 0 then .error (.InvalidPrice price)
  else if name = "" then .error .EmptyName
  else
    let newId := s.productCounter + 1
    let sellerRec := getSellerRec s sender
    .ok ({ s with
      productCounter := newId,
      products := setA s.products newId
        { id := newId, seller := sender, cid := cid, price := price,
          name := name, active := true, salesCount := 0 },
      sellers := setA s.sellers sender
        { sellerRec with productIds := sellerRec.productIds ++ [newId] } }, [])

/-- The state of `purchaseProduct(uint256 _productId)` at the instant the
`safeTransferFrom` interaction executes: the reentrancy lock is held and
every storage write of the operation has already been committed (the code
follows checks-effects-interactions). -/
def purchaseProductPreTransfer (s : MartState) (sender : Addr) (pid : Nat) :
    Except MartErr MartState :=
  if s.entered then .error .ReentrantCall
  else
    let product := getProductRec s pid
    if product.id = 0 then .error (.ProductDoesNotExist pid)
    else if product.active = false then .error (.ProductNotActive pid)
    else if product.seller = sender then .error .CannotBuyOwnProduct
    else if hasPurchasedB s sender pid then .error (.ProductAlreadyPurchased pid)
    else if product.price = 0 then .error (.InvalidPrice 0)
    else
      let platformFee := product.price * s.platformFeePercentage / 10000
      let sellerAmount := product.price - platformFee
      let sellerRec := getSellerRec s product.seller
      .ok { s with
        entered := true,
        purchased := (sender, pid) :: s.purchased,
        products := setA s.products pid { product with salesCount := product.salesCount + 1 },
        sellers := setA s.sellers product.seller
          { sellerRec with
            totalSales := sellerRec.totalSales + 1,
            totalEarnings := sellerRec.totalEarnings + sellerAmount,
            balance := sellerRec.balance + sellerAmount },
        platformBalance := s.platformBalance + platformFee,
        purchasedTotal := s.purchasedTotal + product.price }

/-- `purchaseProduct(uint256 _productId)` (`external nonReentrant`),
returning the post-state and the requested token transfers. The lock is
released on return; on revert every write is rolled back. -/
def purchaseProduct (s : MartState) (sender : Addr) (pid : Nat) :
    Except MartErr (MartState × List Transfer) :=
  match purchaseProductPreTransfer s sender pid with
  | .error e => .error e
  | .ok mid =>
      .ok ({ mid with entered := s.entered },
           [{ src := .acct sender, dst := .custody, amount := (getProductRec s pid).price }])

/-- The state of `withdrawSellerBalance()` at the instant the
`safeTransfer` interaction executes: the lock is held and the caller's
balance has already been zeroed. -/
def withdrawSellerBalancePreTransfer (s : MartState) (sender : Addr) :
    Except MartErr MartState :=
  if s.entered then .error .ReentrantCall
  else
    let amount := (getSellerRec s sender).balance
    if amount = 0 then .error .NoBalanceToWithdraw
    else
      .ok { s with
        entered := true,
        sellers := setA s.sellers sender { getSellerRec s sender with balance := 0 },
        withdrawnTotal := s.withdrawnTotal + amount }

/-- `withdrawSellerBalance()` (`external nonReentrant`). -/
def withdrawSellerBalance (s : MartState) (sender : Addr) :
    Except MartErr (MartState × List Transfer) :=
  match withdrawSellerBalancePreTransfer s sender with
  | .error e => .error e
  | .ok mid =>
      .ok ({ mid with entered := s.entered },
           [{ src := .custody, dst := .acct sender, amount := (getSellerRec s sender).balance }])

/-- The state of `withdrawPlatformFees()` at the instant the
`mneeToken.transfer` interaction executes. The function is `onlyOwner`
but has NO `nonReentrant` modifier, so the reentrancy status is whatever
it was at entry; the platform balance has already been zeroed. -/
def withdrawPlatformFeesPreTransfer (s : MartState) (sender : Addr) :
    Except MartErr MartState :=
  if sender ≠ s.owner then .error .NotOwner
  else
    let amount := s.platformBalance
    if amount = 0 then .error .NoPlatformFeesToWithdraw
    else
      .ok { s with
        platformBalance := 0,
        withdrawnTotal := s.withdrawnTotal + amount }

/-- `withdrawPlatformFees()` (`external onlyOwner`, not `nonReentrant`);
transfers the accumulated fees to `Martowner`. -/
def withdrawPlatformFees (s : MartState) (sender : Addr) :
    Except MartErr (MartState × List Transfer) :=
  match withdrawPlatformFeesPreTransfer s sender with
  | .error e => .error e
  | .ok mid =>
      .ok (mid, [{ src := .custody, dst := .acct s.Martowner, amount := s.platformBalance }])

/-- `getProductCID(uint256 _productId)` (`external view`). -/
def getProductCID (s : MartState) (sender : Addr) (pid : Nat) : Except MartErr String :=
  let product := getProductRec s pid
  if product.id = 0 then .error (.ProductDoesNotExist pid)
  else if ¬hasPurchasedB s sender pid ∧ product.seller ≠ sender then .error .AccessDenied
  else .ok product.cid

/-- `deactivateProduct(uint256 _productId)`: seller-only, no existence
check precedes the seller comparison. -/
def deactivateProduct (s : MartState) (sender : Addr) (pid : Nat) :
    Except MartErr (MartState × List Transfer) :=
  let product := getProductRec s pid
  if product.seller ≠ sender then .error .NotProductSeller
  else if product.active = false then .error .ProductAlreadyInactive
  else .ok ({ s with products := setA s.products pid { product with active := false } }, [])

/-- `activateProduct(uint256 _productId)`: seller-only, no existence
check precedes the seller comparison. -/
def activateProduct (s : MartState) (sender : Addr) (pid : Nat) :
    Except MartErr (MartState × List Transfer) :=
  let product := getProductRec s pid
  if product.seller ≠ sender then .error .NotProductSeller
  else if product.active = true then .error .ProductAlreadyActive
  else .ok ({ s with products := setA s.products pid { product with active := true } }, [])

/-- `updateProductPrice(uint256 _productId, uint256 _newPrice)`:
seller-only, no existence check precedes the seller comparison. -/
def updateProductPrice (s : MartState) (sender : Addr) (pid : Nat) (newPrice : Nat) :
    Except MartErr (MartState × List Transfer) :=
  let product := getProductRec s pid
  if product.seller ≠ sender then .error .NotProductSeller
  else if newPrice = 0 then .error (.InvalidPrice newPrice)
  else .ok ({ s with products := setA s.products pid { product with price := newPrice } }, [])

/-- Modelled from the spec: the function `updatePlatformFee` is exercised
by the repository's tests and announced by the `PlatformFeeUpdated` event,
but its body is absent from the sources. Per the spec the fee rate is
"set at initialization and mutable only by the platform owner subject to
the same ceiling" (2000 basis points). -/
def updatePlatformFee (s : MartState) (sender : Addr) (newFee : Nat) :
    Except MartErr (MartState × List Transfer) :=
  if sender ≠ s.owner then .error .NotOwner
  else if 2000 < newFee then .error (.FeeTooHigh newFee 2000)
  else .ok ({ s with platformFeePercentage := newFee }, [])

/-- A mutating external call to the contract. -/
inductive MartCall where
  | list (sender : Addr) (cid : String) (price : Nat) (name : String)
  | purchase (sender : Addr) (pid : Nat)
  | withdrawSeller (sender : Addr)
  | withdrawPlatform (sender : Addr)
deriving Repr, DecidableEq

/-- Transaction semantics of one call: on success the new state is
committed, on revert the state is unchanged. -/
def applyCall (s : MartState) (c : MartCall) : MartState :=
  match c with
  | .list sender cid price name =>
      match listProduct s sender cid price name with
      | .ok (sNext, _) => sNext
      | .error _ => s
  | .purchase sender pid =>
      match purchaseProduct s sender pid with
      | .ok (sNext, _) => sNext
      | .error _ => s
  | .withdrawSeller sender =>
      match withdrawSellerBalance s sender with
      | .ok (sNext, _) => sNext
      | .error _ => s
  | .withdrawPlatform sender =>
      match withdrawPlatformFees s sender with
      | .ok (sNext, _) => sNext
      | .error _ => s

/-- Run a sequence of calls. -/
def run (s : MartState) (cs : List MartCall) : MartState :=
  cs.foldl applyCall s

/-- The sum of all sellers' withdrawable balances. -/
def sumBalances (l : List (Addr × Seller)) : Nat :=
  (l.map (fun kv => kv.2.balance)).sum

/-- The conservation invariant of the escrow ledger:
seller balances + platform accumulator + amounts already withdrawn
= prices of all completed purchases. -/
def ConservesFunds (s : MartState) : Prop :=
  sumBalances s.sellers + s.platformBalance + s.withdrawnTotal = s.purchasedTotal


/-! ### Explicit post-states of the successful operations -/

/-- The storage written by a successful `purchaseProduct` up to the
external transfer (lock held). -/
def purchaseSuccState (s : MartState) (sender : Addr) (pid : Nat) : MartState :=
  let product := getProductRec s pid
  let platformFee := product.price * s.platformFeePercentage / 10000
  let sellerAmount := product.price - platformFee
  let sellerRec := getSellerRec s product.seller
  { s with
    entered := true,
    purchased := (sender, pid) :: s.purchased,
    products := setA s.products pid { product with salesCount := product.salesCount + 1 },
    sellers := setA s.sellers product.seller
      { sellerRec with
        totalSales := sellerRec.totalSales + 1,
        totalEarnings := sellerRec.totalEarnings + sellerAmount,
        balance := sellerRec.balance + sellerAmount },
    platformBalance := s.platformBalance + platformFee,
    purchasedTotal := s.purchasedTotal + product.price }

/-- The storage written by a successful `withdrawSellerBalance` up to the
external transfer (lock held, balance already zeroed). -/
def withdrawSellerSuccState (s : MartState) (sender : Addr) : MartState :=
  { s with
    entered := true,
    sellers := setA s.sellers sender { getSellerRec s sender with balance := 0 },
    withdrawnTotal := s.withdrawnTotal + (getSellerRec s sender).balance }

/-- The storage written by a successful `withdrawPlatformFees` up to the
external transfer (no lock in this function, accumulator already zeroed). -/
def withdrawPlatformSuccState (s : MartState) : MartState :=
  { s with
    platformBalance := 0,
    withdrawnTotal := s.withdrawnTotal + s.platformBalance }

/-! ### Association-list lemmas -/

lemma lookupD_setA_self {α β : Type} [DecidableEq α] (d : β) (l : List (α × β))
    (a : α) (v : β) : lookupD d (setA l a v) a = v := by
  induction l with
  | nil => simp [setA, lookupD]
  | cons kv t ih =>
      obtain ⟨k, w⟩ := kv
      by_cases hk : k = a
      · simp [setA, hk, lookupD]
      · simp [setA, hk, lookupD, ih]

lemma setA_setA_self {α β : Type} [DecidableEq α] (l : List (α × β))
    (a : α) (v w : β) : setA (setA l a v) a w = setA l a w := by
  induction l with
  | nil => simp [setA]
  | cons kv t ih =>
      obtain ⟨k, u⟩ := kv
      by_cases hk : k = a
      · simp [setA, hk]
      · simp [setA, hk, ih]

lemma setA_lookupD_of_ne {α β : Type} [DecidableEq α] (d : β) (l : List (α × β))
    (a : α) (h : lookupD d l a ≠ d) : setA l a (lookupD d l a) = l := by
  induction l with
  | nil => simp [lookupD] at h
  | cons kv t ih =>
      obtain ⟨k, w⟩ := kv
      by_cases hk : k = a
      · subst hk
        simp [setA, lookupD]
      · simp only [lookupD, if_neg hk] at h
        simp [setA, hk, lookupD, ih h]

lemma sumBalances_setA (l : List (Addr × Seller)) (a : Addr) (v : Seller) :
    sumBalances (setA l a v) + (lookupD defaultSeller l a).balance =
      sumBalances l + v.balance := by
  induction l with
  | nil => simp [setA, sumBalances, lookupD, defaultSeller]
  | cons kv t ih =>
      obtain ⟨k, w⟩ := kv
      by_cases hk : k = a
      · subst hk
        simp [setA, sumBalances, lookupD]
        try omega
      · simp only [setA, if_neg hk, sumBalances, List.map_cons, List.sum_cons,
          lookupD]
        simp only [sumBalances] at ih
        omega

/-- The platform fee never exceeds the price when the fee rate is at most
10000 basis points. -/
lemma fee_le_price (price bps : Nat) (h : bps ≤ 10000) :
    price * bps / 10000 ≤ price := by
  calc price * bps / 10000 ≤ price * 10000 / 10000 :=
        Nat.div_le_div_right (Nat.mul_le_mul_left _ h)
    _ = price := by
        rw [Nat.mul_comm]
        exact Nat.mul_div_cancel_left _ (by norm_num)

/-! ### Characterization of `purchaseProduct` -/

lemma purchasePre_reentrant {s : MartState} (sender : Addr) (pid : Nat)
    (hent : s.entered = true) :
    purchaseProductPreTransfer s sender pid = .error .ReentrantCall := by
  simp [purchaseProductPreTransfer, hent]

lemma purchasePre_notFound {s : MartState} {sender : Addr} {pid : Nat}
    (hent : s.entered = false) (hid : (getProductRec s pid).id = 0) :
    purchaseProductPreTransfer s sender pid = .error (.ProductDoesNotExist pid) := by
  simp [purchaseProductPreTransfer, hent, hid]

lemma purchasePre_notActive {s : MartState} {sender : Addr} {pid : Nat}
    (hent : s.entered = false) (hid : (getProductRec s pid).id ≠ 0)
    (hact : (getProductRec s pid).active = false) :
    purchaseProductPreTransfer s sender pid = .error (.ProductNotActive pid) := by
  simp [purchaseProductPreTransfer, hent, hid, hact]

lemma purchasePre_selfPurchase {s : MartState} {sender : Addr} {pid : Nat}
    (hent : s.entered = false) (hid : (getProductRec s pid).id ≠ 0)
    (hact : (getProductRec s pid).active = true)
    (hsel : (getProductRec s pid).seller = sender) :
    purchaseProductPreTransfer s sender pid = .error .CannotBuyOwnProduct := by
  simp [purchaseProductPreTransfer, hent, hid, hact, hsel]

lemma purchasePre_alreadyPurchased {s : MartState} {sender : Addr} {pid : Nat}
    (hent : s.entered = false) (hid : (getProductRec s pid).id ≠ 0)
    (hact : (getProductRec s pid).active = true)
    (hsel : (getProductRec s pid).seller ≠ sender)
    (hpur : hasPurchasedB s sender pid = true) :
    purchaseProductPreTransfer s sender pid = .error (.ProductAlreadyPurchased pid) := by
  simp [purchaseProductPreTransfer, hent, hid, hact, hsel, hpur]

lemma purchasePre_priceZero {s : MartState} {sender : Addr} {pid : Nat}
    (hent : s.entered = false) (hid : (getProductRec s pid).id ≠ 0)
    (hact : (getProductRec s pid).active = true)
    (hsel : (getProductRec s pid).seller ≠ sender)
    (hpur : hasPurchasedB s sender pid = false)
    (hpr : (getProductRec s pid).price = 0) :
    purchaseProductPreTransfer s sender pid = .error (.InvalidPrice 0) := by
  simp [purchaseProductPreTransfer, hent, hid, hact, hsel, hpur, hpr]

lemma purchasePre_success {s : MartState} {sender : Addr} {pid : Nat}
    (hent : s.entered = false) (hid : (getProductRec s pid).id ≠ 0)
    (hact : (getProductRec s pid).active = true)
    (hsel : (getProductRec s pid).seller ≠ sender)
    (hpur : hasPurchasedB s sender pid = false)
    (hpr : (getProductRec s pid).price ≠ 0) :
    purchaseProductPreTransfer s sender pid = .ok (purchaseSuccState s sender pid) := by
  simp [purchaseProductPreTransfer, purchaseSuccState, hent, hid, hact, hsel, hpur, hpr]

lemma purchaseProduct_of_pre_error {s : MartState} {sender : Addr} {pid : Nat}
    {e : MartErr} (h : purchaseProductPreTransfer s sender pid = .error e) :
    purchaseProduct s sender pid = .error e := by
  unfold purchaseProduct
  rw [h]

lemma purchaseProduct_of_pre_ok {s : MartState} {sender : Addr} {pid : Nat}
    {mid : MartState} (h : purchaseProductPreTransfer s sender pid = .ok mid) :
    purchaseProduct s sender pid =
      .ok ({ mid with entered := s.entered },
           [{ src := .acct sender, dst := .custody,
              amount := (getProductRec s pid).price }]) := by
  unfold purchaseProduct
  rw [h]

/-- Inversion: a successful purchase implies all five checks passed and
determines the post-state and the transfer exactly. -/
lemma purchaseProduct_ok_inv {s : MartState} {sender : Addr} {pid : Nat}
    {out : MartState × List Transfer}
    (h : purchaseProduct s sender pid = .ok out) :
    s.entered = false ∧ (getProductRec s pid).id ≠ 0 ∧
    (getProductRec s pid).active = true ∧
    (getProductRec s pid).seller ≠ sender ∧
    hasPurchasedB s sender pid = false ∧
    (getProductRec s pid).price ≠ 0 ∧
    out = ({ purchaseSuccState s sender pid with entered := false },
           [{ src := .acct sender, dst := .custody,
              amount := (getProductRec s pid).price }]) := by
  by_cases hent : s.entered = true
  · rw [purchaseProduct_of_pre_error (purchasePre_reentrant sender pid hent)] at h
    simp at h
  rw [Bool.not_eq_true] at hent
  by_cases hid : (getProductRec s pid).id = 0
  · rw [purchaseProduct_of_pre_error (purchasePre_notFound hent hid)] at h
    simp at h
  by_cases hact : (getProductRec s pid).active = true
  case neg =>
    rw [Bool.not_eq_true] at hact
    rw [purchaseProduct_of_pre_error (purchasePre_notActive hent hid hact)] at h
    simp at h
  by_cases hsel : (getProductRec s pid).seller = sender
  · rw [purchaseProduct_of_pre_error (purchasePre_selfPurchase hent hid hact hsel)] at h
    simp at h
  by_cases hpur : hasPurchasedB s sender pid = true
  · rw [purchaseProduct_of_pre_error
      (purchasePre_alreadyPurchased hent hid hact hsel hpur)] at h
    simp at h
  rw [Bool.not_eq_true] at hpur
  by_cases hpr : (getProductRec s pid).price = 0
  · rw [purchaseProduct_of_pre_error
      (purchasePre_priceZero hent hid hact hsel hpur hpr)] at h
    simp at h
  rw [purchaseProduct_of_pre_ok (purchasePre_success hent hid hact hsel hpur hpr)] at h
  refine ⟨hent, hid, hact, hsel, hpur, hpr, ?_⟩
  injection h with h
  rw [← h, hent]

/-! ### Characterization of the withdrawal operations -/

lemma withdrawSellerPre_reentrant {s : MartState} (sender : Addr)
    (hent : s.entered = true) :
    withdrawSellerBalancePreTransfer s sender = .error .ReentrantCall := by
  simp [withdrawSellerBalancePreTransfer, hent]

lemma withdrawSellerPre_noBalance {s : MartState} {sender : Addr}
    (hent : s.entered = false) (hbal : (getSellerRec s sender).balance = 0) :
    withdrawSellerBalancePreTransfer s sender = .error .NoBalanceToWithdraw := by
  simp [withdrawSellerBalancePreTransfer, hent, hbal]

lemma withdrawSellerPre_success {s : MartState} {sender : Addr}
    (hent : s.entered = false) (hbal : (getSellerRec s sender).balance ≠ 0) :
    withdrawSellerBalancePreTransfer s sender = .ok (withdrawSellerSuccState s sender) := by
  simp [withdrawSellerBalancePreTransfer, withdrawSellerSuccState, hent, hbal]

lemma withdrawSellerBalance_of_pre_error {s : MartState} {sender : Addr}
    {e : MartErr} (h : withdrawSellerBalancePreTransfer s sender = .error e) :
    withdrawSellerBalance s sender = .error e := by
  unfold withdrawSellerBalance
  rw [h]

lemma withdrawSellerBalance_of_pre_ok {s : MartState} {sender : Addr}
    {mid : MartState} (h : withdrawSellerBalancePreTransfer s sender = .ok mid) :
    withdrawSellerBalance s sender =
      .ok ({ mid with entered := s.entered },
           [{ src := .custody, dst := .acct sender,
              amount := (getSellerRec s sender).balance }]) := by
  unfold withdrawSellerBalance
  rw [h]

lemma withdrawSellerBalance_ok_inv {s : MartState} {sender : Addr}
    {out : MartState × List Transfer}
    (h : withdrawSellerBalance s sender = .ok out) :
    s.entered = false ∧ (getSellerRec s sender).balance ≠ 0 ∧
    out = ({ withdrawSellerSuccState s sender with entered := false },
           [{ src := .custody, dst := .acct sender,
              amount := (getSellerRec s sender).balance }]) := by
  by_cases hent : s.entered = true
  · rw [withdrawSellerBalance_of_pre_error (withdrawSellerPre_reentrant sender hent)] at h
    simp at h
  rw [Bool.not_eq_true] at hent
  by_cases hbal : (getSellerRec s sender).balance = 0
  · rw [withdrawSellerBalance_of_pre_error (withdrawSellerPre_noBalance hent hbal)] at h
    simp at h
  rw [withdrawSellerBalance_of_pre_ok (withdrawSellerPre_success hent hbal)] at h
  refine ⟨hent, hbal, ?_⟩
  injection h with h
  rw [← h, hent]

lemma withdrawPlatformPre_notOwner {s : MartState} {sender : Addr}
    (hown : sender ≠ s.owner) :
    withdrawPlatformFeesPreTransfer s sender = .error .NotOwner := by
  simp [withdrawPlatformFeesPreTransfer, hown]

lemma withdrawPlatformPre_noFees {s : MartState} {sender : Addr}
    (hown : sender = s.owner) (hbal : s.platformBalance = 0) :
    withdrawPlatformFeesPreTransfer s sender = .error .NoPlatformFeesToWithdraw := by
  simp [withdrawPlatformFeesPreTransfer, hown, hbal]

lemma withdrawPlatformPre_success {s : MartState} {sender : Addr}
    (hown : sender = s.owner) (hbal : s.platformBalance ≠ 0) :
    withdrawPlatformFeesPreTransfer s sender = .ok (withdrawPlatformSuccState s) := by
  simp [withdrawPlatformFeesPreTransfer, withdrawPlatformSuccState, hown, hbal]

lemma withdrawPlatformFees_of_pre_error {s : MartState} {sender : Addr}
    {e : MartErr} (h : withdrawPlatformFeesPreTransfer s sender = .error e) :
    withdrawPlatformFees s sender = .error e := by
  unfold withdrawPlatformFees
  rw [h]

lemma withdrawPlatformFees_of_pre_ok {s : MartState} {sender : Addr}
    {mid : MartState} (h : withdrawPlatformFeesPreTransfer s sender = .ok mid) :
    withdrawPlatformFees s sender =
      .ok (mid, [{ src := .custody, dst := .acct s.Martowner,
                   amount := s.platformBalance }]) := by
  unfold withdrawPlatformFees
  rw [h]

lemma withdrawPlatformFees_ok_inv {s : MartState} {sender : Addr}
    {out : MartState × List Transfer}
    (h : withdrawPlatformFees s sender = .ok out) :
    sender = s.owner ∧ s.platformBalance ≠ 0 ∧
    out = (withdrawPlatformSuccState s,
           [{ src := .custody, dst := .acct s.Martowner,
              amount := s.platformBalance }]) := by
  by_cases hown : sender = s.owner
  case neg =>
    rw [withdrawPlatformFees_of_pre_error (withdrawPlatformPre_notOwner hown)] at h
    simp at h
  by_cases hbal : s.platformBalance = 0
  · rw [withdrawPlatformFees_of_pre_error (withdrawPlatformPre_noFees hown hbal)] at h
    simp at h
  rw [withdrawPlatformFees_of_pre_ok (withdrawPlatformPre_success hown hbal)] at h
  refine ⟨hown, hbal, ?_⟩
  injection h with h
  rw [← h]

/-! ### Characterization of `listProduct` -/

/-- The post-state of a successful `listProduct`. -/
def listSuccState (s : MartState) (sender : Addr) (cid : String) (price : Nat)
    (name : String) : MartState :=
  { s with
    productCounter := s.productCounter + 1,
    products := setA s.products (s.productCounter + 1)
      { id := s.productCounter + 1, seller := sender, cid := cid, price := price,
        name := name, active := true, salesCount := 0 },
    sellers := setA s.sellers sender
      { getSellerRec s sender with
        productIds := (getSellerRec s sender).productIds ++ [s.productCounter + 1] } }

lemma listProduct_success {s : MartState} {sender : Addr} {cid : String}
    {price : Nat} {name : String} (hcid : cid ≠ "") (hpr : price ≠ 0)
    (hname : name ≠ "") :
    listProduct s sender cid price name = .ok (listSuccState s sender cid price name, []) := by
  simp [listProduct, listSuccState, hcid, hpr, hname]

lemma listProduct_ok_inv {s : MartState} {sender : Addr} {cid : String}
    {price : Nat} {name : String} {out : MartState × List Transfer}
    (h : listProduct s sender cid price name = .ok out) :
    cid ≠ "" ∧ price ≠ 0 ∧ name ≠ "" ∧
    out = (listSuccState s sender cid price name, []) := by
  by_cases hcid : cid = ""
  · simp [listProduct, hcid] at h
  by_cases hpr : price = 0
  · simp [listProduct, hcid, hpr] at h
  by_cases hname : name = ""
  · simp [listProduct, hcid, hpr, hname] at h
  rw [listProduct_success hcid hpr hname] at h
  exact ⟨hcid, hpr, hname, by injection h with h; rw [← h]⟩

/-! ### Preservation of the conservation invariant -/

lemma listSuccState_conserves {s : MartState} (sender : Addr) (cid : String)
    (price : Nat) (name : String) (hc : ConservesFunds s) :
    ConservesFunds (listSuccState s sender cid price name) := by
  have hsum := sumBalances_setA s.sellers sender
    { getSellerRec s sender with
      productIds := (getSellerRec s sender).productIds ++ [s.productCounter + 1] }
  unfold ConservesFunds at *
  unfold listSuccState
  simp only [getSellerRec] at *
  omega

lemma purchaseSuccState_conserves {s : MartState} (sender : Addr) (pid : Nat)
    (hc : ConservesFunds s) (hfee : s.platformFeePercentage ≤ 10000) :
    ConservesFunds (purchaseSuccState s sender pid) := by
  have hle := fee_le_price (getProductRec s pid).price s.platformFeePercentage hfee
  have hsum := sumBalances_setA s.sellers (getProductRec s pid).seller
    { getSellerRec s (getProductRec s pid).seller with
      totalSales := (getSellerRec s (getProductRec s pid).seller).totalSales + 1,
      totalEarnings := (getSellerRec s (getProductRec s pid).seller).totalEarnings +
        ((getProductRec s pid).price -
          (getProductRec s pid).price * s.platformFeePercentage / 10000),
      balance := (getSellerRec s (getProductRec s pid).seller).balance +
        ((getProductRec s pid).price -
          (getProductRec s pid).price * s.platformFeePercentage / 10000) }
  unfold ConservesFunds at *
  unfold purchaseSuccState
  simp only [getSellerRec] at *
  omega

lemma withdrawSellerSuccState_conserves {s : MartState} (sender : Addr)
    (hc : ConservesFunds s) : ConservesFunds (withdrawSellerSuccState s sender) := by
  have hsum := sumBalances_setA s.sellers sender
    { getSellerRec s sender with balance := 0 }
  unfold ConservesFunds at *
  unfold withdrawSellerSuccState
  simp only [getSellerRec] at *
  omega

lemma withdrawPlatformSuccState_conserves {s : MartState}
    (hc : ConservesFunds s) : ConservesFunds (withdrawPlatformSuccState s) := by
  unfold ConservesFunds at *
  unfold withdrawPlatformSuccState
  dsimp only
  omega

/-- `ConservesFunds` does not mention the reentrancy flag. -/
lemma conserves_entered {s : MartState} (b : Bool) (hc : ConservesFunds s) :
    ConservesFunds { s with entered := b } := hc

lemma applyCall_conserves {s : MartState} (c : MartCall)
    (hc : ConservesFunds s) (hfee : s.platformFeePercentage ≤ 10000) :
    ConservesFunds (applyCall s c) := by
  cases c with
  | list sender cid price name =>
      simp only [applyCall]
      split
      case _ out hout =>
        obtain ⟨-, -, -, hout2⟩ := listProduct_ok_inv hout
        injection hout2 with h1 h2
        rw [h1]
        exact listSuccState_conserves sender cid price name hc
      case _ => exact hc
  | purchase sender pid =>
      simp only [applyCall]
      split
      case _ out hout =>
        obtain ⟨-, -, -, -, -, -, hout2⟩ := purchaseProduct_ok_inv hout
        injection hout2 with h1 h2
        rw [h1]
        exact conserves_entered false (purchaseSuccState_conserves sender pid hc hfee)
      case _ => exact hc
  | withdrawSeller sender =>
      simp only [applyCall]
      split
      case _ out hout =>
        obtain ⟨-, -, hout2⟩ := withdrawSellerBalance_ok_inv hout
        injection hout2 with h1 h2
        rw [h1]
        exact conserves_entered false (withdrawSellerSuccState_conserves sender hc)
      case _ => exact hc
  | withdrawPlatform sender =>
      simp only [applyCall]
      split
      case _ out hout =>
        obtain ⟨-, -, hout2⟩ := withdrawPlatformFees_ok_inv hout
        injection hout2 with h1 h2
        rw [h1]
        exact withdrawPlatformSuccState_conserves hc
      case _ => exact hc

/-- None of the four ledger calls changes the configured fee rate. -/
lemma applyCall_fee_eq (s : MartState) (c : MartCall) :
    (applyCall s c).platformFeePercentage = s.platformFeePercentage := by
  cases c with
  | list sender cid price name =>
      simp only [applyCall]
      split
      case _ out hout =>
        obtain ⟨-, -, -, hout2⟩ := listProduct_ok_inv hout
        injection hout2 with h1 h2
        rw [h1]
        rfl
      case _ => rfl
  | purchase sender pid =>
      simp only [applyCall]
      split
      case _ out hout =>
        obtain ⟨-, -, -, -, -, -, hout2⟩ := purchaseProduct_ok_inv hout
        injection hout2 with h1 h2
        rw [h1]
        rfl
      case _ => rfl
  | withdrawSeller sender =>
      simp only [applyCall]
      split
      case _ out hout =>
        obtain ⟨-, -, hout2⟩ := withdrawSellerBalance_ok_inv hout
        injection hout2 with h1 h2
        rw [h1]
        rfl
      case _ => rfl
  | withdrawPlatform sender =>
      simp only [applyCall]
      split
      case _ out hout =>
        obtain ⟨-, -, hout2⟩ := withdrawPlatformFees_ok_inv hout
        injection hout2 with h1 h2
        rw [h1]
        rfl
      case _ => rfl

lemma run_conserves (cs : List MartCall) (s : MartState)
    (hc : ConservesFunds s) (hfee : s.platformFeePercentage ≤ 10000) :
    ConservesFunds (run s cs) := by
  induction cs generalizing s with
  | nil => exact hc
  | cons c t ih =>
      unfold run
      simp only [List.foldl_cons]
      exact ih (applyCall s c) (applyCall_conserves c hc hfee)
        (by rw [applyCall_fee_eq]; exact hfee)

/-- Inversion of the constructor: a successful deployment yields the
all-zero initial state with the validated parameters. -/
lemma constructor_ok_inv {deployer : Addr} {token feeBps : Nat} {s0 : MartState}
    (h : constructor deployer token feeBps = .ok s0) :
    token ≠ 0 ∧ feeBps ≤ 2000 ∧
    s0 = { mneeToken := token, owner := deployer, Martowner := deployer,
           platformFeePercentage := feeBps, productCounter := 0, platformBalance := 0,
           products := [], sellers := [], purchased := [], entered := false,
           withdrawnTotal := 0, purchasedTotal := 0 } := by
  by_cases htok : token = 0
  · simp [constructor, htok] at h
  by_cases hfee : 2000 < feeBps
  · simp [constructor, htok, hfee] at h
  refine ⟨htok, by omega, ?_⟩
  simp [constructor, htok, hfee] at h
  rw [← h]

/-- The storage immediately after a successful deployment. -/
def initialState (deployer : Addr) (token feeBps : Nat) : MartState :=
  { mneeToken := token, owner := deployer, Martowner := deployer,
    platformFeePercentage := feeBps, productCounter := 0, platformBalance := 0,
    products := [], sellers := [], purchased := [], entered := false,
    withdrawnTotal := 0, purchasedTotal := 0 }

lemma constructor_ok_of_valid {deployer : Addr} {token feeBps : Nat}
    (htok : token ≠ 0) (hfee : feeBps ≤ 2000) :
    constructor deployer token feeBps = .ok (initialState deployer token feeBps) := by
  simp [constructor, initialState, htok]
  omega

lemma applyCall_purchase_error {s : MartState} {b : Addr} {pid : Nat} {e : MartErr}
    (h : purchaseProduct s b pid = .error e) :
    applyCall s (.purchase b pid) = s := by
  simp only [applyCall, h]

lemma applyCall_withdrawSeller_error {s : MartState} {b : Addr} {e : MartErr}
    (h : withdrawSellerBalance s b = .error e) :
    applyCall s (.withdrawSeller b) = s := by
  simp only [applyCall, h]

/-- A little marketplace used to instantiate the universally quantified
theorems: fee rate 500 bps, owner `1`, one active product `1` priced 5000
sold by `2`, one prior sale already settled into the seller balance and
the platform accumulator. -/
def demoProduct : Product :=
  { id := 1, seller := 2, cid := "QmDemo", price := 5000, name := "Book",
    active := true, salesCount := 1 }

def demoState : MartState :=
  { mneeToken := 7, owner := 1, Martowner := 1, platformFeePercentage := 500,
    productCounter := 1, platformBalance := 250,
    products := [(1, demoProduct)],
    sellers := [(2, { productIds := [1], totalSales := 1, balance := 4750,
                      totalEarnings := 4750 })],
    purchased := [(9, 1)], entered := false,
    withdrawnTotal := 0, purchasedTotal := 5000 }

/-- A freshly deployed marketplace with no products. -/
def emptyMart : MartState := initialState 1 7 500

/-- C1: in every state reachable from the freshly constructed program by
any sequence of `listProduct`, `purchaseProduct`, `withdrawSellerBalance`
and `withdrawPlatformFees` calls, the sum of all sellers' withdrawable
balances plus the platform accumulator plus the total of all amounts
already withdrawn equals the sum of the prices of all completed
purchases. -/
theorem C1_funds_conservation (deployer : Addr) (token feeBps : Nat)
    (s0 : MartState) (cs : List MartCall)
    (h : constructor deployer token feeBps = .ok s0) :
    ConservesFunds (run s0 cs) := by
  obtain ⟨-, hfee, hs0⟩ := constructor_ok_inv h
  subst hs0
  refine run_conserves cs _ (by simp [ConservesFunds, sumBalances]) ?_
  show feeBps ≤ 10000
  omega

/-- Witness for C1: a concrete deployment followed by a listing, a
purchase, a seller withdrawal and a platform withdrawal. -/
theorem C1_funds_conservation_witness :
    ConservesFunds (run (initialState 1 7 500)
      [MartCall.list 2 "QmX" 5000 "Book", MartCall.purchase 3 1,
       MartCall.withdrawSeller 2, MartCall.withdrawPlatform 1]) :=
  C1_funds_conservation 1 7 500 (initialState 1 7 500)
    [MartCall.list 2 "QmX" 5000 "Book", MartCall.purchase 3 1,
     MartCall.withdrawSeller 2, MartCall.withdrawPlatform 1]
    (constructor_ok_of_valid (by decide) (by decide))

/-- C2: for an existing active product with positive price, a buyer who is
not the seller and has no prior receipt, and fee rate at most 2000 basis
points, a successful `purchaseProduct` credits the platform accumulator by
exactly `fee = price * feeRate / 10000`, credits the seller's withdrawable
balance and lifetime earnings by exactly `price - fee` (with
`fee + (price - fee) = price` exactly), sets the (buyer, product) receipt,
and increments the product's sales counter and the seller's total-sales
count by one. -/
theorem C2_purchase_effects (s : MartState) (buyer : Addr) (pid : Nat)
    (hent : s.entered = false)
    (hid : (getProductRec s pid).id ≠ 0)
    (hact : (getProductRec s pid).active = true)
    (hsel : (getProductRec s pid).seller ≠ buyer)
    (hpur : hasPurchasedB s buyer pid = false)
    (hpr : 0 < (getProductRec s pid).price)
    (hfee : s.platformFeePercentage ≤ 2000) :
    purchaseProduct s buyer pid =
      .ok ({ purchaseSuccState s buyer pid with entered := false },
           [{ src := .acct buyer, dst := .custody,
              amount := (getProductRec s pid).price }]) ∧
    (getProductRec s pid).price * s.platformFeePercentage / 10000 +
        ((getProductRec s pid).price -
          (getProductRec s pid).price * s.platformFeePercentage / 10000) =
      (getProductRec s pid).price ∧
    (purchaseSuccState s buyer pid).platformBalance =
      s.platformBalance +
        (getProductRec s pid).price * s.platformFeePercentage / 10000 ∧
    (getSellerRec (purchaseSuccState s buyer pid) (getProductRec s pid).seller).balance =
      (getSellerRec s (getProductRec s pid).seller).balance +
        ((getProductRec s pid).price -
          (getProductRec s pid).price * s.platformFeePercentage / 10000) ∧
    (getSellerRec (purchaseSuccState s buyer pid) (getProductRec s pid).seller).totalEarnings =
      (getSellerRec s (getProductRec s pid).seller).totalEarnings +
        ((getProductRec s pid).price -
          (getProductRec s pid).price * s.platformFeePercentage / 10000) ∧
    hasPurchasedB (purchaseSuccState s buyer pid) buyer pid = true ∧
    (getProductRec (purchaseSuccState s buyer pid) pid).salesCount =
      (getProductRec s pid).salesCount + 1 ∧
    (getSellerRec (purchaseSuccState s buyer pid) (getProductRec s pid).seller).totalSales =
      (getSellerRec s (getProductRec s pid).seller).totalSales + 1 := by
  have hpr0 : (getProductRec s pid).price ≠ 0 := by omega
  refine ⟨?_, ?_, ?_, ?_, ?_, ?_, ?_, ?_⟩
  · rw [purchaseProduct_of_pre_ok (purchasePre_success hent hid hact hsel hpur hpr0), hent]
  · have := fee_le_price (getProductRec s pid).price s.platformFeePercentage (by omega)
    omega
  · simp [purchaseSuccState]
  · simp [purchaseSuccState, getSellerRec, lookupD_setA_self]
  · simp [purchaseSuccState, getSellerRec, lookupD_setA_self]
  · simp [purchaseSuccState, hasPurchasedB]
  · simp [purchaseSuccState, getProductRec, lookupD_setA_self]
  · simp [purchaseSuccState, getSellerRec, lookupD_setA_self]

/-- Witness for C2: buyer `3` buys product `1` in the demo marketplace. -/
theorem C2_purchase_effects_witness :
    purchaseProduct demoState 3 1 =
      .ok ({ purchaseSuccState demoState 3 1 with entered := false },
           [{ src := Party.acct 3, dst := Party.custody,
              amount := (getProductRec demoState 1).price }]) ∧
    hasPurchasedB (purchaseSuccState demoState 3 1) 3 1 = true :=
  ⟨(C2_purchase_effects demoState 3 1 (by decide) (by decide) (by decide)
      (by decide) (by decide) (by decide) (by decide)).1,
   (C2_purchase_effects demoState 3 1 (by decide) (by decide) (by decide)
      (by decide) (by decide) (by decide) (by decide)).2.2.2.2.2.1⟩

/-- C3: `purchaseProduct` checks its preconditions in order — existence
(`ProductDoesNotExist`), activity (`ProductNotActive`), not the seller
(`CannotBuyOwnProduct`), no prior receipt (`ProductAlreadyPurchased`) —
failing with the first one violated; every failure leaves the escrow
state unchanged; and a second purchase of the same product by the same
buyer always fails with `ProductAlreadyPurchased` and changes nothing. -/
theorem C3_purchase_precondition_order (s : MartState) (buyer : Addr) (pid : Nat)
    (hent : s.entered = false) :
    ((getProductRec s pid).id = 0 →
        purchaseProduct s buyer pid = .error (.ProductDoesNotExist pid)) ∧
    ((getProductRec s pid).id ≠ 0 → (getProductRec s pid).active = false →
        purchaseProduct s buyer pid = .error (.ProductNotActive pid)) ∧
    ((getProductRec s pid).id ≠ 0 → (getProductRec s pid).active = true →
        (getProductRec s pid).seller = buyer →
        purchaseProduct s buyer pid = .error .CannotBuyOwnProduct) ∧
    ((getProductRec s pid).id ≠ 0 → (getProductRec s pid).active = true →
        (getProductRec s pid).seller ≠ buyer → hasPurchasedB s buyer pid = true →
        purchaseProduct s buyer pid = .error (.ProductAlreadyPurchased pid)) ∧
    (∀ e, purchaseProduct s buyer pid = .error e →
        applyCall s (.purchase buyer pid) = s) ∧
    (∀ s1 ts, purchaseProduct s buyer pid = .ok (s1, ts) →
        purchaseProduct s1 buyer pid = .error (.ProductAlreadyPurchased pid) ∧
        applyCall s1 (.purchase buyer pid) = s1) := by
  refine ⟨?_, ?_, ?_, ?_, ?_, ?_⟩
  · intro hid
    exact purchaseProduct_of_pre_error (purchasePre_notFound hent hid)
  · intro hid hact
    exact purchaseProduct_of_pre_error (purchasePre_notActive hent hid hact)
  · intro hid hact hsel
    exact purchaseProduct_of_pre_error (purchasePre_selfPurchase hent hid hact hsel)
  · intro hid hact hsel hpur
    exact purchaseProduct_of_pre_error
      (purchasePre_alreadyPurchased hent hid hact hsel hpur)
  · intro e he
    exact applyCall_purchase_error he
  · intro s1 ts h
    obtain ⟨-, hid, hact, hsel, -, -, hout⟩ := purchaseProduct_ok_inv h
    injection hout with h1 h2
    have hs1 : s1 = { purchaseSuccState s buyer pid with entered := false } := h1
    have hent1 : s1.entered = false := by rw [hs1]
    have hprod1 : getProductRec s1 pid =
        { getProductRec s pid with
          salesCount := (getProductRec s pid).salesCount + 1 } := by
      rw [hs1]
      simp [purchaseSuccState, getProductRec, lookupD_setA_self]
    have hpur1 : hasPurchasedB s1 buyer pid = true := by
      rw [hs1]
      simp [purchaseSuccState, hasPurchasedB]
    have herr : purchaseProduct s1 buyer pid = .error (.ProductAlreadyPurchased pid) := by
      refine purchaseProduct_of_pre_error
        (purchasePre_alreadyPurchased hent1 ?_ ?_ ?_ hpur1)
      · rw [hprod1]
        exact hid
      · rw [hprod1]
        exact hact
      · rw [hprod1]
        exact hsel
    exact ⟨herr, applyCall_purchase_error herr⟩

/-- Witness for C3: in the demo marketplace buyer `9` already holds a
receipt for product `1`, so a repeat purchase fails with
`ProductAlreadyPurchased`. -/
theorem C3_purchase_precondition_order_witness :
    purchaseProduct demoState 9 1 = .error (.ProductAlreadyPurchased 1) :=
  (C3_purchase_precondition_order demoState 9 1 (by decide)).2.2.2.1
    (by decide) (by decide) (by decide) (by decide)

deriving instance DecidableEq for Except

/-- C4 counterexample: `withdrawPlatformFees` carries no reentrancy
guard. In the demo marketplace the owner's platform withdrawal reaches
its token-transfer step with the lock NOT held, and from that point a
nested `withdrawSellerBalance` (a mutating operation) succeeds instead of
being rejected — refuting the claim that the lock is held for the whole
duration of all three operations. -/
theorem C4_reentrancy_guard_counterexample :
    withdrawPlatformFeesPreTransfer demoState 1 =
      .ok (withdrawPlatformSuccState demoState) ∧
    (withdrawPlatformSuccState demoState).entered = false ∧
    (withdrawSellerBalance (withdrawPlatformSuccState demoState) 2).isOk = true ∧
    (purchaseProduct (withdrawPlatformSuccState demoState) 3 1).isOk = true := by
  decide

/-- C4 (amended): the program-wide lock is held for the whole duration of
`purchaseProduct` and `withdrawSellerBalance` — a nested synchronous call
into either of these made from within their external token-transfer step
is rejected with `ReentrantCall` — but `withdrawPlatformFees` is not
guarded by the lock. -/
theorem C4_reentrancy_guard_amended (s : MartState) (sender : Addr) (pid : Nat) :
    (∀ mid, purchaseProductPreTransfer s sender pid = .ok mid →
      mid.entered = true ∧
      (∀ b q, purchaseProduct mid b q = .error .ReentrantCall) ∧
      (∀ b, withdrawSellerBalance mid b = .error .ReentrantCall)) ∧
    (∀ mid, withdrawSellerBalancePreTransfer s sender = .ok mid →
      mid.entered = true ∧
      (∀ b q, purchaseProduct mid b q = .error .ReentrantCall) ∧
      (∀ b, withdrawSellerBalance mid b = .error .ReentrantCall)) := by
  constructor
  · intro mid h
    obtain ⟨hent, hid, hact, hsel, hpur, hpr, -⟩ :=
      purchaseProduct_ok_inv (purchaseProduct_of_pre_ok h)
    rw [purchasePre_success hent hid hact hsel hpur hpr] at h
    injection h with h
    have hmid : mid.entered = true := by
      rw [← h]
      rfl
    exact ⟨hmid,
      fun b q => purchaseProduct_of_pre_error (purchasePre_reentrant b q hmid),
      fun b => withdrawSellerBalance_of_pre_error (withdrawSellerPre_reentrant b hmid)⟩
  · intro mid h
    obtain ⟨hent, hbal, -⟩ :=
      withdrawSellerBalance_ok_inv (withdrawSellerBalance_of_pre_ok h)
    rw [withdrawSellerPre_success hent hbal] at h
    injection h with h
    have hmid : mid.entered = true := by
      rw [← h]
      rfl
    exact ⟨hmid,
      fun b q => purchaseProduct_of_pre_error (purchasePre_reentrant b q hmid),
      fun b => withdrawSellerBalance_of_pre_error (withdrawSellerPre_reentrant b hmid)⟩

/-- Witness for the amended C4: during buyer `3`'s purchase of product
`1` the lock is held and nested mutating calls are rejected. -/
theorem C4_reentrancy_guard_amended_witness :
    (purchaseSuccState demoState 3 1).entered = true ∧
    purchaseProduct (purchaseSuccState demoState 3 1) 9 1 = .error .ReentrantCall ∧
    withdrawSellerBalance (purchaseSuccState demoState 3 1) 2 = .error .ReentrantCall :=
  ⟨((C4_reentrancy_guard_amended demoState 3 1).1
      (purchaseSuccState demoState 3 1) (by decide)).1,
   ((C4_reentrancy_guard_amended demoState 3 1).1
      (purchaseSuccState demoState 3 1) (by decide)).2.1 9 1,
   ((C4_reentrancy_guard_amended demoState 3 1).1
      (purchaseSuccState demoState 3 1) (by decide)).2.2 2⟩

/-- C5: on a successful purchase, every local state mutation (receipt,
sales counters, seller credit, platform credit) is already committed in
the state at which the external transfer of `price` from the buyer to the
custody account is requested; the final state differs from that
pre-transfer state only by releasing the reentrancy lock, and the
operation requests exactly that one transfer, as its last step. -/
theorem C5_effects_before_transfer (s : MartState) (buyer : Addr) (pid : Nat)
    (s1 : MartState) (ts : List Transfer)
    (h : purchaseProduct s buyer pid = .ok (s1, ts)) :
    purchaseProductPreTransfer s buyer pid = .ok (purchaseSuccState s buyer pid) ∧
    ts = [{ src := .acct buyer, dst := .custody,
            amount := (getProductRec s pid).price }] ∧
    s1 = { purchaseSuccState s buyer pid with entered := false } ∧
    hasPurchasedB (purchaseSuccState s buyer pid) buyer pid = true ∧
    (getProductRec (purchaseSuccState s buyer pid) pid).salesCount =
      (getProductRec s pid).salesCount + 1 ∧
    (getSellerRec (purchaseSuccState s buyer pid) (getProductRec s pid).seller).totalSales =
      (getSellerRec s (getProductRec s pid).seller).totalSales + 1 ∧
    (getSellerRec (purchaseSuccState s buyer pid) (getProductRec s pid).seller).balance =
      (getSellerRec s (getProductRec s pid).seller).balance +
        ((getProductRec s pid).price -
          (getProductRec s pid).price * s.platformFeePercentage / 10000) ∧
    (purchaseSuccState s buyer pid).platformBalance =
      s.platformBalance + (getProductRec s pid).price * s.platformFeePercentage / 10000 := by
  obtain ⟨hent, hid, hact, hsel, hpur, hpr, hout⟩ := purchaseProduct_ok_inv h
  injection hout with h1 h2
  refine ⟨purchasePre_success hent hid hact hsel hpur hpr, h2, h1, ?_, ?_, ?_, ?_, ?_⟩
  · simp [purchaseSuccState, hasPurchasedB]
  · simp [purchaseSuccState, getProductRec, lookupD_setA_self]
  · simp [purchaseSuccState, getSellerRec, lookupD_setA_self]
  · simp [purchaseSuccState, getSellerRec, lookupD_setA_self]
  · simp [purchaseSuccState]

/-- Witness for C5 at buyer `3`, product `1` of the demo marketplace. -/
theorem C5_effects_before_transfer_witness :
    purchaseProductPreTransfer demoState 3 1 = .ok (purchaseSuccState demoState 3 1) ∧
    hasPurchasedB (purchaseSuccState demoState 3 1) 3 1 = true :=
  ⟨(C5_effects_before_transfer demoState 3 1
      { purchaseSuccState demoState 3 1 with entered := false }
      [{ src := .acct 3, dst := .custody, amount := (getProductRec demoState 1).price }]
      (by decide)).1,
   (C5_effects_before_transfer demoState 3 1
      { purchaseSuccState demoState 3 1 with entered := false }
      [{ src := .acct 3, dst := .custody, amount := (getProductRec demoState 1).price }]
      (by decide)).2.2.2.1⟩

/-- C6: `withdrawSellerBalance` fails with `NoBalanceToWithdraw` exactly
when the caller's balance is zero (leaving state unchanged); otherwise it
zeroes the balance and transfers exactly the prior amount, so a second
call in sequence fails with `NoBalanceToWithdraw` — never a double
transfer. -/
theorem C6_withdraw_seller_zero_then_transfer (s : MartState) (sender : Addr)
    (hent : s.entered = false) :
    ((getSellerRec s sender).balance = 0 ↔
        withdrawSellerBalance s sender = .error .NoBalanceToWithdraw) ∧
    (withdrawSellerBalance s sender = .error .NoBalanceToWithdraw →
        applyCall s (.withdrawSeller sender) = s) ∧
    ((getSellerRec s sender).balance ≠ 0 →
        withdrawSellerBalance s sender =
          .ok ({ withdrawSellerSuccState s sender with entered := false },
               [{ src := .custody, dst := .acct sender,
                  amount := (getSellerRec s sender).balance }]) ∧
        (getSellerRec { withdrawSellerSuccState s sender with entered := false }
            sender).balance = 0) ∧
    (∀ s1 ts, withdrawSellerBalance s sender = .ok (s1, ts) →
        withdrawSellerBalance s1 sender = .error .NoBalanceToWithdraw ∧
        applyCall s1 (.withdrawSeller sender) = s1) := by
  have hsucc : (getSellerRec s sender).balance ≠ 0 →
      withdrawSellerBalance s sender =
        .ok ({ withdrawSellerSuccState s sender with entered := false },
             [{ src := .custody, dst := .acct sender,
                amount := (getSellerRec s sender).balance }]) := by
    intro hbal
    rw [withdrawSellerBalance_of_pre_ok (withdrawSellerPre_success hent hbal), hent]
  refine ⟨⟨?_, ?_⟩, ?_, ?_, ?_⟩
  · intro hbal
    exact withdrawSellerBalance_of_pre_error (withdrawSellerPre_noBalance hent hbal)
  · intro herr
    by_cases hbal : (getSellerRec s sender).balance = 0
    · exact hbal
    · rw [hsucc hbal] at herr
      simp at herr
  · intro herr
    exact applyCall_withdrawSeller_error herr
  · intro hbal
    refine ⟨hsucc hbal, ?_⟩
    simp [withdrawSellerSuccState, getSellerRec, lookupD_setA_self]
  · intro s1 ts h
    obtain ⟨-, hbal, hout⟩ := withdrawSellerBalance_ok_inv h
    injection hout with h1 h2
    have hent1 : s1.entered = false := by rw [h1]
    have hbal1 : (getSellerRec s1 sender).balance = 0 := by
      rw [h1]
      simp [withdrawSellerSuccState, getSellerRec, lookupD_setA_self]
    have herr : withdrawSellerBalance s1 sender = .error .NoBalanceToWithdraw :=
      withdrawSellerBalance_of_pre_error (withdrawSellerPre_noBalance hent1 hbal1)
    exact ⟨herr, applyCall_withdrawSeller_error herr⟩

/-- Witness for C6: seller `2` of the demo marketplace withdraws their
4750 balance; the immediate second withdrawal fails with
`NoBalanceToWithdraw`. -/
theorem C6_withdraw_seller_zero_then_transfer_witness :
    withdrawSellerBalance demoState 2 =
      .ok ({ withdrawSellerSuccState demoState 2 with entered := false },
           [{ src := .custody, dst := .acct 2,
              amount := (getSellerRec demoState 2).balance }]) ∧
    withdrawSellerBalance
      { withdrawSellerSuccState demoState 2 with entered := false } 2 =
        .error .NoBalanceToWithdraw :=
  ⟨((C6_withdraw_seller_zero_then_transfer demoState 2 (by decide)).2.2.1
      (by decide)).1,
   ((C6_withdraw_seller_zero_then_transfer demoState 2 (by decide)).2.2.2
      { withdrawSellerSuccState demoState 2 with entered := false }
      [{ src := .custody, dst := .acct 2,
         amount := (getSellerRec demoState 2).balance }] (by decide)).1⟩

/-- C7: for an existing product, `getProductCID` returns the content
identifier exactly when the caller holds a purchase receipt or is the
seller, and fails with `AccessDenied` otherwise; for a nonexistent
product id it fails with `ProductDoesNotExist`; in particular the seller
can always retrieve their own product's content id. -/
theorem C7_content_access_gating (s : MartState) (caller : Addr) (pid : Nat) :
    ((getProductRec s pid).id = 0 →
        getProductCID s caller pid = .error (.ProductDoesNotExist pid)) ∧
    ((getProductRec s pid).id ≠ 0 →
        (getProductCID s caller pid = .ok (getProductRec s pid).cid ↔
          hasPurchasedB s caller pid = true ∨ (getProductRec s pid).seller = caller)) ∧
    ((getProductRec s pid).id ≠ 0 → hasPurchasedB s caller pid = false →
        (getProductRec s pid).seller ≠ caller →
        getProductCID s caller pid = .error .AccessDenied) ∧
    ((getProductRec s pid).id ≠ 0 → (getProductRec s pid).seller = caller →
        getProductCID s caller pid = .ok (getProductRec s pid).cid) := by
  refine ⟨?_, ?_, ?_, ?_⟩
  · intro hid
    simp [getProductCID, hid]
  · intro hid
    constructor
    · intro hok
      by_cases hpur : hasPurchasedB s caller pid = true
      · exact Or.inl hpur
      by_cases hsel : (getProductRec s pid).seller = caller
      · exact Or.inr hsel
      · rw [Bool.not_eq_true] at hpur
        simp [getProductCID, hid, hpur, hsel] at hok
    · intro hauth
      rcases hauth with hpur | hsel
      · simp [getProductCID, hid, hpur]
      · simp [getProductCID, hid, hsel]
  · intro hid hpur hsel
    simp [getProductCID, hid, hpur, hsel]
  · intro hid hsel
    simp [getProductCID, hid, hsel]

/-- Witness for C7: in the demo marketplace the seller (`2`) and the
prior buyer (`9`) read product `1`'s content id, a stranger (`3`) is
denied, and the unlisted id `5` does not exist. -/
theorem C7_content_access_gating_witness :
    getProductCID demoState 2 1 = .ok (getProductRec demoState 1).cid ∧
    getProductCID demoState 9 1 = .ok (getProductRec demoState 1).cid ∧
    getProductCID demoState 3 1 = .error .AccessDenied ∧
    getProductCID demoState 3 5 = .error (.ProductDoesNotExist 5) :=
  ⟨(C7_content_access_gating demoState 2 1).2.2.2 (by decide) (by decide),
   ((C7_content_access_gating demoState 9 1).2.1 (by decide)).mpr
      (Or.inl (by decide)),
   (C7_content_access_gating demoState 3 1).2.2.1 (by decide) (by decide) (by decide),
   (C7_content_access_gating demoState 3 5).1 (by decide)⟩

/-- C8: the fee rate is set at construction — any rate above 2000 basis
points is rejected with `FeeTooHigh` carrying the provided and maximum
values — and is mutable afterwards through `updatePlatformFee`, which
only the platform owner may call, which rejects rates above the same
ceiling, and after which the stored rate equals the new rate. -/
theorem C8_fee_rate_configuration (deployer : Addr) (token feeBps : Nat)
    (s : MartState) (sender : Addr) (newFee : Nat) :
    (token ≠ 0 → 2000 < feeBps →
        constructor deployer token feeBps = .error (.FeeTooHigh feeBps 2000)) ∧
    (token ≠ 0 → feeBps ≤ 2000 →
        constructor deployer token feeBps = .ok (initialState deployer token feeBps) ∧
        (initialState deployer token feeBps).platformFeePercentage = feeBps) ∧
    (sender ≠ s.owner → updatePlatformFee s sender newFee = .error .NotOwner) ∧
    (sender = s.owner → 2000 < newFee →
        updatePlatformFee s sender newFee = .error (.FeeTooHigh newFee 2000)) ∧
    (sender = s.owner → newFee ≤ 2000 →
        updatePlatformFee s sender newFee =
          .ok ({ s with platformFeePercentage := newFee }, []) ∧
        ({ s with platformFeePercentage := newFee } :
            MartState).platformFeePercentage = newFee) := by
  refine ⟨?_, ?_, ?_, ?_, ?_⟩
  · intro htok hfee
    simp [constructor, htok]
    omega
  · intro htok hfee
    exact ⟨constructor_ok_of_valid htok hfee, rfl⟩
  · intro hown
    simp [updatePlatformFee, hown]
  · intro hown hfee
    simp [updatePlatformFee, hown, hfee]
  · intro hown hfee
    refine ⟨?_, rfl⟩
    simp [updatePlatformFee, hown]
    omega

/-- Witness for C8: a 2500 bps deployment is rejected; the demo owner
(`1`) lowers the fee to 1000 bps; an interloper (`5`) is rejected. -/
theorem C8_fee_rate_configuration_witness :
    constructor 1 7 2500 = .error (.FeeTooHigh 2500 2000) ∧
    updatePlatformFee demoState 1 1000 =
      .ok ({ demoState with platformFeePercentage := 1000 }, []) ∧
    updatePlatformFee demoState 5 1000 = .error .NotOwner :=
  ⟨(C8_fee_rate_configuration 1 7 2500 demoState 1 1000).1 (by decide) (by decide),
   ((C8_fee_rate_configuration 1 7 2500 demoState 1 1000).2.2.2.2
      (by decide) (by decide)).1,
   (C8_fee_rate_configuration 1 7 2500 demoState 5 1000).2.2.1 (by decide)⟩

/-- The post-state of a successful `deactivateProduct`. -/
def deactState (s : MartState) (pid : Nat) : MartState :=
  { s with products := setA s.products pid { getProductRec s pid with active := false } }

/-- C9: after the seller deactivates a product, purchasing it fails with
`ProductNotActive`; a subsequent `activateProduct` by the seller returns
the storage to exactly the original state — same sales counter, price and
receipts — restoring purchasability. -/
theorem C9_deactivate_reactivate_roundtrip (s : MartState) (pid : Nat) (sender : Addr)
    (hent : s.entered = false)
    (hid : (getProductRec s pid).id ≠ 0)
    (hact : (getProductRec s pid).active = true)
    (hsel : (getProductRec s pid).seller = sender) :
    deactivateProduct s sender pid = .ok (deactState s pid, []) ∧
    (∀ buyer, purchaseProduct (deactState s pid) buyer pid =
      .error (.ProductNotActive pid)) ∧
    activateProduct (deactState s pid) sender pid = .ok (s, []) := by
  have hP1 : getProductRec (deactState s pid) pid =
      { getProductRec s pid with active := false } := by
    simp [deactState, getProductRec, lookupD_setA_self]
  have hne : lookupD defaultProduct s.products pid ≠ defaultProduct := by
    intro hcontra
    apply hid
    show (lookupD defaultProduct s.products pid).id = 0
    rw [hcontra]
    rfl
  refine ⟨?_, ?_, ?_⟩
  · simp [deactivateProduct, deactState, hsel, hact]
  · intro buyer
    refine purchaseProduct_of_pre_error (purchasePre_notActive hent ?_ ?_)
    · rw [hP1]
      exact hid
    · rw [hP1]
  · have hPP2 : ({ id := (getProductRec s pid).id, seller := sender,
                   cid := (getProductRec s pid).cid,
                   price := (getProductRec s pid).price,
                   name := (getProductRec s pid).name, active := true,
                   salesCount := (getProductRec s pid).salesCount } : Product) =
        getProductRec s pid := by
      rw [← hsel, ← hact]
    simp only [activateProduct, hP1]
    simp only [hsel, ne_eq, not_true_eq_false, if_false, Bool.false_eq_true]
    rw [hPP2]
    rw [show setA (deactState s pid).products pid (getProductRec s pid) =
        s.products from by
      rw [show (deactState s pid).products = setA s.products pid
          { getProductRec s pid with active := false } from rfl,
        setA_setA_self, show getProductRec s pid =
        lookupD defaultProduct s.products pid from rfl,
        setA_lookupD_of_ne defaultProduct s.products pid hne]]
    rfl

/-- Witness for C9: seller `2` deactivates and reactivates product `1` of
the demo marketplace; in between, buyer `3` is rejected with
`ProductNotActive`. -/
theorem C9_deactivate_reactivate_roundtrip_witness :
    deactivateProduct demoState 2 1 = .ok (deactState demoState 1, []) ∧
    purchaseProduct (deactState demoState 1) 3 1 = .error (.ProductNotActive 1) ∧
    activateProduct (deactState demoState 1) 2 1 = .ok (demoState, []) :=
  ⟨(C9_deactivate_reactivate_roundtrip demoState 1 2 (by decide) (by decide)
      (by decide) (by decide)).1,
   (C9_deactivate_reactivate_roundtrip demoState 1 2 (by decide) (by decide)
      (by decide) (by decide)).2.1 3,
   (C9_deactivate_reactivate_roundtrip demoState 1 2 (by decide) (by decide)
      (by decide) (by decide)).2.2⟩

/-- C10 counterexample: the claim quantifies over EVERY caller, but for
the zero (default) account the seller check passes vacuously on a
nonexistent product: `deactivateProduct` then fails with
`ProductAlreadyInactive` rather than `NotProductSeller`, and
`activateProduct` / `updateProductPrice` even succeed, materializing a
phantom record. -/
theorem C10_nonexistent_product_counterexample :
    getProductRec emptyMart 5 = defaultProduct ∧
    emptyMart.productCounter < 5 ∧
    deactivateProduct emptyMart 0 5 = .error .ProductAlreadyInactive ∧
    activateProduct emptyMart 0 5 =
      .ok ({ emptyMart with products := [(5, { defaultProduct with active := true })] }, []) ∧
    updateProductPrice emptyMart 0 5 100 =
      .ok ({ emptyMart with products := [(5, { defaultProduct with price := 100 })] }, []) := by
  decide

/-- C10 (amended): for every product id with no existing record and every
caller other than the zero account, `deactivateProduct`,
`activateProduct` and `updateProductPrice` fail with `NotProductSeller`
rather than a not-found error: the seller check against the default
(zero) account fires and no existence check precedes it. -/
theorem C10_nonexistent_product_seller_check (s : MartState) (caller : Addr)
    (pid : Nat) (hcaller : caller ≠ 0)
    (hnone : getProductRec s pid = defaultProduct) :
    deactivateProduct s caller pid = .error .NotProductSeller ∧
    activateProduct s caller pid = .error .NotProductSeller ∧
    (∀ newPrice, updateProductPrice s caller pid newPrice =
      .error .NotProductSeller) := by
  have hsel : (getProductRec s pid).seller ≠ caller := by
    rw [hnone]
    exact fun h => hcaller (Eq.symm h)
  refine ⟨?_, ?_, fun newPrice => ?_⟩
  · simp [deactivateProduct, hsel]
  · simp [activateProduct, hsel]
  · simp [updateProductPrice, hsel]

/-- Witness for the amended C10: caller `3` on the unlisted id `5` of a
fresh marketplace. -/
theorem C10_nonexistent_product_seller_check_witness :
    deactivateProduct emptyMart 3 5 = .error .NotProductSeller ∧
    activateProduct emptyMart 3 5 = .error .NotProductSeller ∧
    updateProductPrice emptyMart 3 5 100 = .error .NotProductSeller :=
  ⟨(C10_nonexistent_product_seller_check emptyMart 3 5 (by decide) (by decide)).1,
   (C10_nonexistent_product_seller_check emptyMart 3 5 (by decide) (by decide)).2.1,
   (C10_nonexistent_product_seller_check emptyMart 3 5 (by decide) (by decide)).2.2 100⟩

end MneeMart
